import Mathlib

set_option maxRecDepth 100000

/-
Verification of the website prober/classifier core of find-expried-domain.

The embedding models the pure parts of src/website_checker.py and
src/models.py over lists of characters. Python strings are `List Char`;
`str.strip()`, `str.rstrip( slash )`, `str.lower()`, `str.startswith` and the
`in` substring test are modelled by the helpers below. Network effects are
made explicit: an HTTP exchange is summarised by the data the classifier
inspects (status code, the netloc of the final post-redirect URL as returned
by `urlparse(...).netloc`, and the fetched body as an `Except`, whose error
side models a content fetch that raised).
-/

namespace FindExpiredDomain

/-- Python `s.startswith(p)` on char lists. -/
def startsWithCh : List Char → List Char → Bool
  | _, [] => true
  | [], _ :: _ => false
  | c :: cs, d :: ds => c == d && startsWithCh cs ds

/-- Python substring test `needle in haystack` on char lists. -/
def containsSub (needle : List Char) : List Char → Bool
  | [] => needle.isEmpty
  | c :: t => startsWithCh (c :: t) needle || containsSub needle t

/-- Python `s.lower()`; ASCII case folding (the source's keyword lists are
ASCII or Thai, and Thai has no case). -/
def pyLower (l : List Char) : List Char := l.map Char.toLower

/-- Drop leading whitespace characters, one half of Python `str.strip()`. -/
def stripLeading : List Char → List Char
  | [] => []
  | c :: t => if c.isWhitespace then stripLeading t else c :: t

/-- Python `s.strip()`: remove leading and trailing whitespace. -/
def pyStrip (l : List Char) : List Char :=
  ((stripLeading ((stripLeading l).reverse)).reverse)

/-- Drop leading slash characters. -/
def dropLeadingSlashes : List Char → List Char
  | [] => []
  | c :: t => if c = '/' then dropLeadingSlashes t else c :: t

/-- Python `s.rstrip( the slash character )`: remove all trailing slashes. -/
def pyRstripSlash (l : List Char) : List Char :=
  (dropLeadingSlashes l.reverse).reverse

/-- Whether the last character of a char list is whitespace. -/
def last_is_whitespace (l : List Char) : Bool :=
  match l.getLast? with
  | some c => c.isWhitespace
  | none => false

/-- models.py WebsiteStatus. -/
inductive WebsiteStatus where
  | OK
  | NO_WEBSITE
  | NO_DNS
  | DEAD_DOMAIN
  | SSL_ERROR
  | TIMEOUT
  | CONNECTION_ERROR
  | HTTP_ERROR_4XX
  | HTTP_ERROR_5XX
  | REDIRECT_PARKING
  | UNDER_CONSTRUCTION
  | UNKNOWN
deriving DecidableEq

/-- models.py DEAD_WEBSITE_STATUSES: the statuses counted as dead. -/
def DEAD_WEBSITE_STATUSES : List WebsiteStatus :=
  [WebsiteStatus.NO_DNS,
   WebsiteStatus.DEAD_DOMAIN,
   WebsiteStatus.SSL_ERROR,
   WebsiteStatus.TIMEOUT,
   WebsiteStatus.CONNECTION_ERROR,
   WebsiteStatus.HTTP_ERROR_4XX,
   WebsiteStatus.HTTP_ERROR_5XX,
   WebsiteStatus.REDIRECT_PARKING,
   WebsiteStatus.UNDER_CONSTRUCTION]

/-- models.py WebsiteCheckResult.is_dead, as a predicate on the status. -/
def is_dead (s : WebsiteStatus) : Bool :=
  DEAD_WEBSITE_STATUSES.contains s

/-- website_checker.py PARKING_PAGE_DOMAINS. -/
def PARKING_PAGE_DOMAINS : List (List Char) :=
  ["sedoparking.com".toList,
   "sedo.com".toList,
   "hugedomains.com".toList,
   "godaddy.com".toList,
   "parkingcrew.net".toList,
   "bodis.com".toList,
   "above.com".toList,
   "undeveloped.com".toList,
   "dan.com".toList,
   "afternic.com".toList,
   "domainmarket.com".toList,
   "thnic.co.th".toList,
   "thnic.net".toList,
   "dreamhost.com".toList,
   "bluehost.com".toList,
   "hostgator.com".toList,
   "namecheap.com".toList,
   "hover.com".toList,
   "porkbun.com".toList,
   "parked.com".toList,
   "parkedcom.com".toList,
   "parkeddomain.com".toList]

/-- website_checker.py PARKING_PAGE_KEYWORDS. -/
def PARKING_PAGE_KEYWORDS : List (List Char) :=
  ["domain is for sale".toList,
   "this domain is for sale".toList,
   "buy this domain".toList,
   "domain name for sale".toList,
   "domain may be for sale".toList,
   "this webpage is parked".toList,
   "domain has expired".toList,
   "domain expired".toList,
   "renewal grace period".toList,
   "โดเมนนี้กำลังขาย".toList,
   "ชื่อโดเมนว่าง".toList,
   "the domain has expired".toList,
   "expired domain".toList,
   "registrar verification".toList,
   "coming soon".toList,
   "under construction".toList,
   "website coming soon".toList,
   "parked free".toList,
   "parked domain".toList]

/-- website_checker.py WebsiteChecker._normalize_url. Written without the
intermediate rebindings of the source's local variable, with the same
semantics: strip whitespace, return empty on empty, prefix https when no
scheme, strip trailing slashes. -/
def normalize_url (url : List Char) : List Char :=
  if (pyStrip url).isEmpty then []
  else if startsWithCh (pyStrip url) ("http://".toList) ||
          startsWithCh (pyStrip url) ("https://".toList) then
    pyRstripSlash (pyStrip url)
  else
    pyRstripSlash (("https://".toList) ++ pyStrip url)

/-- website_checker.py WebsiteChecker._extract_domain: the source calls
`urlparse(url).netloc.lower()`; `urlparse` is external library code, so the
embedding takes the netloc component as its input and models the lowering. -/
def extract_domain (netloc : List Char) : List Char := pyLower netloc

/-- website_checker.py WebsiteChecker._is_parking_domain, over the netloc of
the URL. -/
def is_parking_domain (netloc : List Char) : Bool :=
  PARKING_PAGE_DOMAINS.any (fun d => containsSub d (extract_domain netloc))

/-- website_checker.py WebsiteChecker._check_parking_content. -/
def check_parking_content (content : List Char) : Bool :=
  if content.isEmpty then false
  else PARKING_PAGE_KEYWORDS.any (fun k => containsSub (pyLower k) (pyLower content))

/-- website_checker.py: the indicator phrases local to _is_under_construction. -/
def uc_indicators : List (List Char) :=
  ["under construction".toList,
   "coming soon".toList,
   "website coming soon".toList,
   "launching soon".toList,
   "we\x27re working on it".toList,
   "กำลังปรับปรุง".toList,
   "เร็วๆนี้".toList,
   "เปิดตัวเร็วๆนี้".toList]

/-- website_checker.py: the `matches` count computed inside
_is_under_construction: how many indicator phrases occur in the lowered body. -/
def uc_match_count (content : List Char) : Nat :=
  (uc_indicators.filter (fun ind => containsSub ind (pyLower content))).length

/-- website_checker.py WebsiteChecker._is_under_construction. -/
def is_under_construction (content : List Char) : Bool :=
  if content.isEmpty then false
  else if content.length < 2000 ∧ 1 ≤ uc_match_count content then true
  else decide (2 ≤ uc_match_count content)

/-- The data of an obtained HTTP response that the classification tail of
website_checker.py WebsiteChecker._do_check inspects: the status code and
the netloc component of `str(response.url)`, the final post-redirect URL. -/
structure ProbeResponse where
  status_code : Nat
  final_netloc : List Char
deriving DecidableEq

/-- website_checker.py WebsiteChecker._do_check, response-classification tail
(after the HEAD-then-GET exchange produced a response): parking-domain test on
the final URL first, then the 5xx and 4xx bands, then the content heuristics
when check_content is set and the code is below 300. The `content` argument
is the body fetch: `Except.error` models the fetch (or anything inside the
surrounding try) raising, which the source swallows and answers OK. -/
def do_check_response (check_content : Bool) (resp : ProbeResponse)
    (content : Except (List Char) (List Char)) : WebsiteStatus :=
  if is_parking_domain resp.final_netloc then WebsiteStatus.REDIRECT_PARKING
  else if 500 ≤ resp.status_code then WebsiteStatus.HTTP_ERROR_5XX
  else if 400 ≤ resp.status_code then WebsiteStatus.HTTP_ERROR_4XX
  else if check_content ∧ resp.status_code < 300 then
    match content with
    | Except.error _ => WebsiteStatus.OK
    | Except.ok body =>
      if check_parking_content body then WebsiteStatus.REDIRECT_PARKING
      else if is_under_construction body then WebsiteStatus.UNDER_CONSTRUCTION
      else WebsiteStatus.OK
  else WebsiteStatus.OK

/-- The status and reason of a result produced by the retry loop of
website_checker.py WebsiteChecker.check_single. -/
structure CoreResult where
  status : WebsiteStatus
  reason : List Char
deriving DecidableEq

/-- One attempt of `await self._do_check(url, start_time)` inside
check_single: either it returned a classified result, or it raised an
exception that no handler inside _do_check classified. -/
inductive AttemptOutcome where
  | success (r : CoreResult)
  | failure (msg : List Char)
deriving DecidableEq

/-- website_checker.py check_single: the result built when the last attempt
also raised, `WebsiteStatus.UNKNOWN` with the last diagnostic message. -/
def unknown_result (max_retries : Nat) (msg : List Char) : CoreResult :=
  { status := WebsiteStatus.UNKNOWN,
    reason := ("Unexpected error after ".toList) ++ (Nat.repr (max_retries + 1)).toList
              ++ (" attempts: ".toList) ++ msg }

/-- website_checker.py check_single retry loop, from attempt index k with the
given number of attempts still allowed after the current one. Returns the
final result together with the list of back-off sleeps performed, in units of
half a second: the source sleeps `0.5 * (attempt + 1)` seconds after failed
attempt `attempt`, recorded here as `attempt + 1`. -/
def run_attempts (attempts : Nat → AttemptOutcome) (max_retries : Nat) :
    Nat → Nat → CoreResult × List Nat
  | k, 0 =>
    match attempts k with
    | AttemptOutcome.success r => (r, [])
    | AttemptOutcome.failure msg => (unknown_result max_retries msg, [])
  | k, remaining + 1 =>
    match attempts k with
    | AttemptOutcome.success r => (r, [])
    | AttemptOutcome.failure _ =>
      let p := run_attempts attempts max_retries (k + 1) remaining
      (p.1, (k + 1) :: p.2)

/-- website_checker.py check_single: the whole `for attempt in
range(self.max_retries + 1)` loop, which makes at most max_retries + 1
attempts starting at attempt 0. -/
def check_single_loop (max_retries : Nat) (attempts : Nat → AttemptOutcome) :
    CoreResult × List Nat :=
  run_attempts attempts max_retries 0 max_retries

/-- website_checker.py check_many: the filter
`[url for url in urls if url and url.strip()]`. -/
def valid_urls (urls : List (List Char)) : List (List Char) :=
  urls.filter (fun u => !u.isEmpty && !(pyStrip u).isEmpty)

/-- The checker's mutable counters self.total_checked and self.total_dead. -/
structure CheckerStats where
  total_checked : Nat
  total_dead : Nat
deriving DecidableEq

/-- website_checker.py check_many: the `for coro in asyncio.as_completed`
drain loop over the results in completion order. For each completed result it
increments the counters (total_dead only when the result is dead) and invokes
the progress callback with `(completed, total)`; the returned list records
those callback invocations in order. -/
def drain_completions (st : CheckerStats) (completed total : Nat) :
    List WebsiteStatus → CheckerStats × List (Nat × Nat)
  | [] => (st, [])
  | s :: rest =>
    let st2 : CheckerStats :=
      ⟨st.total_checked + 1, st.total_dead + (if is_dead s then 1 else 0)⟩
    let p := drain_completions st2 (completed + 1) total rest
    (p.1, (completed + 1, total) :: p.2)

/-- The value produced by one run of check_many: the emitted results (as
statuses, in completion order), the updated checker counters, and the
arguments of the successive progress-callback invocations. -/
structure BatchOutcome where
  results : List WebsiteStatus
  stats : CheckerStats
  calls : List (Nat × Nat)
deriving DecidableEq

/-- website_checker.py WebsiteChecker.check_many. The network is abstracted
by `check`, giving the status each valid URL resolves to, and the
nondeterministic completion order of `asyncio.as_completed` by `order`, a
permutation of the indices of the valid URLs. Each completed result is
appended, the counters are updated, and the progress callback is called with
`(completed, len(valid_urls))`. -/
def check_many (st : CheckerStats) (urls : List (List Char))
    (check : List Char → WebsiteStatus) (order : List Nat) : BatchOutcome :=
  let vu := valid_urls urls
  let results := order.map (fun i => check (vu.getD i []))
  let p := drain_completions st 0 vu.length results
  ⟨results, p.1, p.2⟩

/-- The dict returned by website_checker.py WebsiteChecker.get_stats. The
source computes dead_percentage with Python float division; it is modelled
here in ℚ. -/
structure StatsDict where
  total_checked : Nat
  total_dead : Nat
  dead_percentage : ℚ

/-- website_checker.py WebsiteChecker.get_stats. -/
def get_stats (st : CheckerStats) : StatsDict :=
  { total_checked := st.total_checked,
    total_dead := st.total_dead,
    dead_percentage :=
      if 0 < st.total_checked then
        (st.total_dead : ℚ) / (st.total_checked : ℚ) * 100
      else 0 }

/-- Body used to exhibit the interaction of the parking-keyword and
under-construction phrase lists: longer than 2000 characters and containing
the two distinct under-construction phrases that are also parking keywords. -/
def cx_body : List Char :=
  ("coming soon and under construction".toList) ++ List.replicate 1970 'x'

/-- Long parking-free body containing two distinct under-construction
phrases, neither of which is a parking keyword. -/
def uc_body_two : List Char :=
  ("launching soon we\x27re working on it".toList) ++ List.replicate 1975 'x'

/-- Long parking-free body containing exactly one under-construction
phrase. -/
def uc_body_one : List Char :=
  ("launching soon".toList) ++ List.replicate 1990 'x'

/-! Helper lemmas about the string operations. -/

theorem stripLeading_of_head (l : List Char) (c : Char) (h : l.head? = some c)
    (hw : c.isWhitespace = false) : stripLeading l = l := by
  cases l with
  | nil => simp at h
  | cons a t =>
    simp only [List.head?_cons, Option.some.injEq] at h
    subst h
    simp [stripLeading, hw]

theorem dropLeadingSlashes_head (l : List Char) :
    (dropLeadingSlashes l).head? ≠ some '/' := by
  induction l with
  | nil => simp [dropLeadingSlashes]
  | cons a t ih =>
    by_cases ha : a = '/'
    · simpa [dropLeadingSlashes, ha] using ih
    · simp [dropLeadingSlashes, ha]

theorem dropLeadingSlashes_of_head (l : List Char) (h : l.head? ≠ some '/') :
    dropLeadingSlashes l = l := by
  cases l with
  | nil => rfl
  | cons a t =>
    have ha : a ≠ '/' := by
      intro hc
      exact h (by simp [hc])
    simp [dropLeadingSlashes, ha]

theorem dropLeadingSlashes_append (l m : List Char) (h : ∃ c ∈ l, c ≠ '/') :
    dropLeadingSlashes (l ++ m) = dropLeadingSlashes l ++ m := by
  induction l with
  | nil =>
    obtain ⟨c, hm, _⟩ := h
    simp at hm
  | cons a t ih =>
    by_cases ha : a = '/'
    · subst ha
      simp only [List.cons_append, dropLeadingSlashes, if_pos rfl]
      apply ih
      obtain ⟨c, hm, hne⟩ := h
      rcases List.mem_cons.mp hm with h1 | h2
      · exact absurd h1 hne
      · exact ⟨c, h2, hne⟩
    · simp [dropLeadingSlashes, ha]

theorem pyRstripSlash_getLast (l : List Char) :
    (pyRstripSlash l).getLast? ≠ some '/' := by
  unfold pyRstripSlash
  rw [List.getLast?_reverse]
  exact dropLeadingSlashes_head l.reverse

theorem pyRstripSlash_of_getLast (l : List Char) (h : l.getLast? ≠ some '/') :
    pyRstripSlash l = l := by
  unfold pyRstripSlash
  rw [dropLeadingSlashes_of_head l.reverse (by rwa [List.head?_reverse]),
    List.reverse_reverse]

theorem pyRstripSlash_append (p s : List Char) (h : ∃ c ∈ s, c ≠ '/') :
    pyRstripSlash (p ++ s) = p ++ pyRstripSlash s := by
  unfold pyRstripSlash
  rw [List.reverse_append,
    dropLeadingSlashes_append s.reverse p.reverse
      (by obtain ⟨c, hm, hne⟩ := h; exact ⟨c, List.mem_reverse.mpr hm, hne⟩),
    List.reverse_append, List.reverse_reverse]

theorem startsWithCh_head_eq : ∀ (v p : List Char),
    startsWithCh v p = true → p ≠ [] → v.head? = p.head?
  | _, [], _, hp => absurd rfl hp
  | [], _ :: _, h, _ => by simp [startsWithCh] at h
  | a :: v, c :: p, h, _ => by
    simp only [startsWithCh, Bool.and_eq_true, beq_iff_eq] at h
    simp [h.1]

theorem startsWithCh_append_self : ∀ (p x : List Char),
    startsWithCh (p ++ x) p = true
  | [], x => by
    cases x <;> rfl
  | c :: p, x => by
    simp [startsWithCh, startsWithCh_append_self p x]

theorem normalize_url_shape (u : List Char) :
    normalize_url u = [] ∨ ∃ w, normalize_url u = pyRstripSlash w := by
  unfold normalize_url
  by_cases he : (pyStrip u).isEmpty = true
  · left
    rw [if_pos he]
  · rw [if_neg he]
    by_cases hs : (startsWithCh (pyStrip u) ("http://".toList) ||
        startsWithCh (pyStrip u) ("https://".toList)) = true
    · right
      exact ⟨pyStrip u, by rw [if_pos hs]⟩
    · right
      exact ⟨("https://".toList) ++ pyStrip u, by rw [if_neg hs]⟩

theorem normalize_url_fixed (v : List Char) (h1 : pyStrip v = v) (h2 : v ≠ [])
    (h3 : (startsWithCh v ("http://".toList) ||
           startsWithCh v ("https://".toList)) = true)
    (h4 : v.getLast? ≠ some '/') :
    normalize_url v = v := by
  have hemp : v.isEmpty = false := by
    cases v with
    | nil => exact absurd rfl h2
    | cons a t => rfl
  unfold normalize_url
  rw [h1]
  simp only [hemp, Bool.false_eq_true, if_false, h3, if_true]
  exact pyRstripSlash_of_getLast v h4

/-! Helper lemmas about the batch drain loop. -/

theorem drain_calls (l : List WebsiteStatus) : ∀ (st : CheckerStats) (c t : Nat),
    (drain_completions st c t l).2 =
      (List.range' (c + 1) l.length).map (fun i => (i, t)) := by
  induction l with
  | nil =>
    intro st c t
    simp [drain_completions, List.range']
  | cons s rest ih =>
    intro st c t
    simp only [drain_completions, List.length_cons]
    rw [ih]
    rfl

theorem drain_dead (l : List WebsiteStatus) : ∀ (st : CheckerStats) (c t : Nat),
    (drain_completions st c t l).1.total_dead =
      st.total_dead + (l.filter (fun s => is_dead s)).length := by
  induction l with
  | nil =>
    intro st c t
    simp [drain_completions]
  | cons s rest ih =>
    intro st c t
    simp only [drain_completions]
    rw [ih]
    by_cases hd : is_dead s
    · simp [List.filter_cons, hd]
      omega
    · simp [List.filter_cons, hd]

theorem range'_pairwise_lt : ∀ (n s : Nat), (List.range' s n).Pairwise (· < ·) := by
  intro n
  induction n with
  | zero => intro s; simp [List.range']
  | succ n ih =>
    intro s
    have hmem : ∀ m ∈ List.range' (s + 1) n, s < m := by
      intro m hm
      have := List.mem_range'_1.mp hm
      omega
    exact List.Pairwise.cons hmem (ih (s + 1))

theorem map_range'_getLast (f : Nat → Nat × Nat) : ∀ (n s : Nat),
    ((List.range' s (n + 1)).map f).getLast? = some (f (s + n)) := by
  intro n
  induction n with
  | zero =>
    intro s
    simp [List.range']
  | succ n ih =>
    intro s
    have h1 : List.range' s (n + 1 + 1) = s :: List.range' (s + 1) (n + 1) := rfl
    rw [h1, List.map_cons]
    have h2 : List.range' (s + 1) (n + 1) = (s + 1) :: List.range' (s + 1 + 1) n := rfl
    rw [h2, List.map_cons, List.getLast?_cons_cons, ← List.map_cons, ← h2, ih (s + 1)]
    have : s + 1 + n = s + (n + 1) := by omega
    rw [this]

theorem cx_body_length : cx_body.length = 2004 := by
  unfold cx_body
  rw [List.length_append, List.length_replicate]
  decide

theorem uc_body_two_length : uc_body_two.length = 2009 := by
  unfold uc_body_two
  rw [List.length_append, List.length_replicate]
  decide

theorem uc_body_one_length : uc_body_one.length = 2004 := by
  unfold uc_body_one
  rw [List.length_append, List.length_replicate]
  decide

/-! Claim theorems. -/

/-- Claim C1, counterexample: the claim "is_dead() holds iff the status is
not OK and not NO_WEBSITE" fails at UNKNOWN, which is neither OK nor
NO_WEBSITE yet is not in DEAD_WEBSITE_STATUSES, so is_dead is false. -/
theorem unknown_not_dead_counterexample :
    is_dead WebsiteStatus.UNKNOWN = false ∧
    WebsiteStatus.UNKNOWN ≠ WebsiteStatus.OK ∧
    WebsiteStatus.UNKNOWN ≠ WebsiteStatus.NO_WEBSITE := by decide

/-- Claim C1 (amended): after a batch, the orchestrator's total_dead counter
has grown by exactly the number of emitted results whose status is dead, and
a status is dead iff it is neither OK, nor NO_WEBSITE, nor UNKNOWN (the set
DEAD_WEBSITE_STATUSES); with counters starting at zero, total_dead equals the
number of dead results. -/
theorem total_dead_counts_dead_set (st : CheckerStats) (urls : List (List Char))
    (check : List Char → WebsiteStatus) (order : List Nat) :
    (check_many st urls check order).stats.total_dead =
      st.total_dead +
        ((check_many st urls check order).results.filter (fun s => is_dead s)).length ∧
    ∀ s : WebsiteStatus, is_dead s = true ↔
      (s ≠ WebsiteStatus.OK ∧ s ≠ WebsiteStatus.NO_WEBSITE ∧ s ≠ WebsiteStatus.UNKNOWN) := by
  constructor
  · simp only [check_many]
    exact drain_dead _ _ _ _
  · intro s
    cases s <;> decide

/-- Claim C3, counterexample: URL normalization is not idempotent. On
input "abc /" the first pass yields "https://abc " (stripping the trailing
slash exposes a space), and a second pass strips that space. -/
theorem normalize_url_not_idempotent :
    normalize_url (normalize_url ("abc /".toList)) ≠
      normalize_url ("abc /".toList) := by decide

/-- Claim C3 (amended): normalization is idempotent on every input whose
normalized form is empty, or both carries an http:// or https:// scheme and
does not end in a whitespace character. Stripping trailing slashes can expose
trailing whitespace or truncate a bare scheme, and on exactly those outputs a
second application differs. -/
theorem normalize_url_idempotent_amended (u : List Char)
    (h : normalize_url u = [] ∨
         (last_is_whitespace (normalize_url u) = false ∧
          (startsWithCh (normalize_url u) ("http://".toList) ||
           startsWithCh (normalize_url u) ("https://".toList)) = true)) :
    normalize_url (normalize_url u) = normalize_url u := by
  rcases h with h | ⟨hws, hsch⟩
  · rw [h]
    rfl
  · have hh : (normalize_url u).head? = some 'h' := by
      cases ho : startsWithCh (normalize_url u) ("http://".toList) with
      | true =>
        rw [startsWithCh_head_eq _ _ ho (by decide)]
        decide
      | false =>
        have ho2 : startsWithCh (normalize_url u) ("https://".toList) = true := by
          rw [ho] at hsch
          simpa using hsch
        rw [startsWithCh_head_eq _ _ ho2 (by decide)]
        decide
    have hne : normalize_url u ≠ [] := by
      intro hn
      rw [hn] at hh
      simp at hh
    have hsl : stripLeading (normalize_url u) = normalize_url u :=
      stripLeading_of_head _ _ hh (by decide)
    have hst : pyStrip (normalize_url u) = normalize_url u := by
      unfold pyStrip
      rw [hsl]
      cases hrev : (normalize_url u).reverse with
      | nil =>
        exfalso
        apply hne
        have := congrArg List.reverse hrev
        simpa using this
      | cons a t =>
        have hga : (normalize_url u).getLast? = some a := by
          rw [← List.head?_reverse, hrev]
          rfl
        have haw : a.isWhitespace = false := by
          unfold last_is_whitespace at hws
          rw [hga] at hws
          exact hws
        rw [stripLeading_of_head (a :: t) a rfl haw, ← hrev,
          List.reverse_reverse]
    have hlast : (normalize_url u).getLast? ≠ some '/' := by
      rcases normalize_url_shape u with hc | ⟨w, hw2⟩
      · exact absurd hc hne
      · rw [hw2]
        exact pyRstripSlash_getLast w
    exact normalize_url_fixed _ hst hne hsch hlast

/-- Claim C3, witness: a concrete input satisfying the amended hypothesis. -/
theorem normalize_url_idempotent_witness :
    normalize_url (normalize_url ("example.com".toList)) =
      normalize_url ("example.com".toList) :=
  normalize_url_idempotent_amended ("example.com".toList)
    (Or.inr ⟨by decide, by decide⟩)

/-- Claim C4: whenever the final post-redirect URL's netloc contains a
parking-set entry, the classification is REDIRECT_PARKING, for every status
code and regardless of the content heuristics; the parking-domain test
precedes the 4xx/5xx bands in do_check_response. -/
theorem parking_final_host_overrides_status (check_content : Bool)
    (resp : ProbeResponse) (content : Except (List Char) (List Char))
    (h : is_parking_domain resp.final_netloc = true) :
    do_check_response check_content resp content =
      WebsiteStatus.REDIRECT_PARKING := by
  unfold do_check_response
  simp [h]

/-- Claim C4, witness: a 404 response whose final netloc contains
sedoparking.com classifies as REDIRECT_PARKING, not HTTP_ERROR_4XX. -/
theorem parking_final_host_witness :
    do_check_response true ⟨404, ("www.sedoparking.com".toList)⟩
      (Except.error []) = WebsiteStatus.REDIRECT_PARKING :=
  parking_final_host_overrides_status true _ _ (by decide)

/-- Claim C7: on a successful status code (below 300) with no parking-domain
flag on the final URL, a failing content fetch still yields OK: the except
branch of _do_check swallows the failure. -/
theorem content_fetch_failure_keeps_ok (resp : ProbeResponse) (e : List Char)
    (h1 : resp.status_code < 300)
    (h2 : is_parking_domain resp.final_netloc = false) :
    do_check_response true resp (Except.error e) = WebsiteStatus.OK := by
  unfold do_check_response
  simp only [h2, Bool.false_eq_true, if_false]
  rw [if_neg (by omega), if_neg (by omega), if_pos ⟨by trivial, h1⟩]

/-- Claim C7, witness: a 200 response on a non-parking host whose body fetch
raised still reports OK. -/
theorem content_fetch_failure_witness :
    do_check_response true ⟨200, ("example.com".toList)⟩
      (Except.error ("read timeout".toList)) = WebsiteStatus.OK :=
  content_fetch_failure_keeps_ok ⟨200, ("example.com".toList)⟩
    ("read timeout".toList) (by decide) (by decide)

/-- Claim C8, counterexample: the trimmed input "/" lacks a scheme, yet
normalize_url of it is "https:" — prefixing https:// and then stripping all
trailing slashes destroys the scheme, so the output does not start with
https://. -/
theorem normalize_url_scheme_counterexample :
    (startsWithCh (pyStrip ("/".toList)) ("http://".toList) ||
     startsWithCh (pyStrip ("/".toList)) ("https://".toList)) = false ∧
    startsWithCh (normalize_url ("/".toList)) ("https://".toList) = false := by
  decide

/-- Claim C8 (amended): for every input whose trimmed form lacks an http://
or https:// scheme and contains at least one character other than a slash,
the normalized URL starts with https://. (Empty and all-slash trimmed inputs
are the exceptions the counterexample forces.) -/
theorem normalize_url_adds_https_amended (u : List Char)
    (hsch : (startsWithCh (pyStrip u) ("http://".toList) ||
             startsWithCh (pyStrip u) ("https://".toList)) = false)
    (hc : ∃ c ∈ pyStrip u, c ≠ '/') :
    startsWithCh (normalize_url u) ("https://".toList) = true := by
  obtain ⟨c, hcm, hcne⟩ := hc
  have hne : pyStrip u ≠ [] := by
    intro h
    rw [h] at hcm
    simp at hcm
  have hemp : (pyStrip u).isEmpty = false := by
    cases hh : pyStrip u with
    | nil => exact absurd hh hne
    | cons a t => rfl
  unfold normalize_url
  simp only [hemp, Bool.false_eq_true, if_false, hsch]
  rw [pyRstripSlash_append _ _ ⟨c, hcm, hcne⟩]
  exact startsWithCh_append_self _ _

/-- Claim C8, witness: a schemeless host normalizes to an https:// URL. -/
theorem normalize_url_adds_https_witness :
    startsWithCh (normalize_url ("example.com".toList)) ("https://".toList) = true :=
  normalize_url_adds_https_amended ("example.com".toList) (by decide) (by decide)

/-- Claim C10: get_stats never divides by zero: with no checked URLs the
dead percentage is 0, and otherwise it is total_dead / total_checked x 100. -/
theorem get_stats_no_div_by_zero (st : CheckerStats) :
    (st.total_checked = 0 → (get_stats st).dead_percentage = 0) ∧
    (0 < st.total_checked →
      (get_stats st).dead_percentage =
        (st.total_dead : ℚ) / (st.total_checked : ℚ) * 100) := by
  constructor
  · intro h
    simp [get_stats, h]
  · intro h
    simp only [get_stats]
    rw [if_pos h]

/-- Claim C10, witness: concrete stats on both sides of the guard. -/
theorem get_stats_witness :
    (get_stats ⟨0, 5⟩).dead_percentage = 0 ∧
    (get_stats ⟨4, 1⟩).dead_percentage = 25 := by
  constructor
  · exact (get_stats_no_div_by_zero ⟨0, 5⟩).1 rfl
  · have h := (get_stats_no_div_by_zero ⟨4, 1⟩).2 (by norm_num)
    rw [h]
    norm_num

theorem run_attempts_success (attempts : Nat → AttemptOutcome) (max_retries : Nat) :
    ∀ (j k remaining : Nat) (r : CoreResult), j ≤ remaining →
      attempts (k + j) = AttemptOutcome.success r →
      (∀ i, i < j → ∃ m, attempts (k + i) = AttemptOutcome.failure m) →
      run_attempts attempts max_retries k remaining = (r, List.range' (k + 1) j) := by
  intro j
  induction j with
  | zero =>
    intro k remaining r _ hs _
    rw [Nat.add_zero] at hs
    cases remaining with
    | zero => simp [run_attempts, hs, List.range']
    | succ n => simp [run_attempts, hs, List.range']
  | succ j ih =>
    intro k remaining r hk hs hf
    obtain ⟨m0, hm0⟩ := hf 0 (Nat.succ_pos j)
    rw [Nat.add_zero] at hm0
    cases remaining with
    | zero => omega
    | succ rem =>
      simp only [run_attempts, hm0]
      have hih := ih (k + 1) rem r (by omega)
        (by rw [show k + 1 + j = k + (j + 1) from by omega]; exact hs)
        (by
          intro i hi
          obtain ⟨m, hm⟩ := hf (i + 1) (by omega)
          exact ⟨m, by rw [show k + 1 + i = k + (i + 1) from by omega]; exact hm⟩)
      rw [hih]
      rfl

theorem run_attempts_exhausted (attempts : Nat → AttemptOutcome) (max_retries : Nat) :
    ∀ (remaining k : Nat) (lastMsg : List Char),
      (∀ i, i < remaining → ∃ m, attempts (k + i) = AttemptOutcome.failure m) →
      attempts (k + remaining) = AttemptOutcome.failure lastMsg →
      run_attempts attempts max_retries k remaining =
        (unknown_result max_retries lastMsg, List.range' (k + 1) remaining) := by
  intro remaining
  induction remaining with
  | zero =>
    intro k lastMsg _ hl
    rw [Nat.add_zero] at hl
    simp [run_attempts, hl, List.range']
  | succ rem ih =>
    intro k lastMsg hf hl
    obtain ⟨m0, hm0⟩ := hf 0 (Nat.succ_pos rem)
    rw [Nat.add_zero] at hm0
    simp only [run_attempts, hm0]
    have hih := ih (k + 1) lastMsg
      (by
        intro i hi
        obtain ⟨m, hm⟩ := hf (i + 1) (by omega)
        exact ⟨m, by rw [show k + 1 + i = k + (i + 1) from by omega]; exact hm⟩)
      (by rw [show k + 1 + rem = k + (rem + 1) from by omega]; exact hl)
    rw [hih]
    rfl

/-- Claim C5: the check_single retry loop returns the first classified
result untouched — an attempt resolving to a definite classification is
final, with one back-off sleep of 0.5 x attemptIndex seconds (recorded in
half-second units, so the list [1, ..., k]) per preceding unclassified
failure; and when every one of the max_retries + 1 attempts raises an
unclassified exception, the result is UNKNOWN carrying the last diagnostic
message, after exactly max_retries back-off sleeps. -/
theorem retry_policy_correct (max_retries : Nat) (attempts : Nat → AttemptOutcome) :
    (∀ (k : Nat) (r : CoreResult), k ≤ max_retries →
       attempts k = AttemptOutcome.success r →
       (∀ i, i < k → ∃ m, attempts i = AttemptOutcome.failure m) →
       check_single_loop max_retries attempts = (r, List.range' 1 k)) ∧
    (∀ lastMsg : List Char,
       (∀ i, i < max_retries → ∃ m, attempts i = AttemptOutcome.failure m) →
       attempts max_retries = AttemptOutcome.failure lastMsg →
       check_single_loop max_retries attempts =
         (unknown_result max_retries lastMsg, List.range' 1 max_retries)) := by
  constructor
  · intro k r hk hs hf
    unfold check_single_loop
    have h := run_attempts_success attempts max_retries k 0 max_retries r hk
      (by simpa using hs) (by intro i hi; simpa using hf i hi)
    simpa using h
  · intro lastMsg hf hl
    unfold check_single_loop
    have h := run_attempts_exhausted attempts max_retries max_retries 0 lastMsg
      (by intro i hi; simpa using hf i hi) (by simpa using hl)
    simpa using h

/-- Claim C5, witness: with max_retries = 2, an unclassified failure on
attempt 0 followed by a classified result on attempt 1 returns that result
after a single 0.5 s sleep, leaving the third attempt unused. -/
theorem retry_policy_witness :
    check_single_loop 2
      (fun k => if k = 0 then AttemptOutcome.failure ("boom".toList)
        else AttemptOutcome.success ⟨WebsiteStatus.OK, ("Website is accessible".toList)⟩) =
      (⟨WebsiteStatus.OK, ("Website is accessible".toList)⟩, [1]) := by
  have h := (retry_policy_correct 2
    (fun k => if k = 0 then AttemptOutcome.failure ("boom".toList)
      else AttemptOutcome.success ⟨WebsiteStatus.OK, ("Website is accessible".toList)⟩)).1
    1 ⟨WebsiteStatus.OK, ("Website is accessible".toList)⟩ (by omega) rfl
    (by
      intro i hi
      have hi0 : i = 0 := by omega
      subst hi0
      exact ⟨("boom".toList), rfl⟩)
  simpa using h

/-- Claim C6: for every batch, the orchestrator emits exactly one result per
valid (non-empty, non-whitespace-only) URL, the progress callback is invoked
once per result with completed values 1, 2, ..., M (strictly increasing,
ending at M = number of valid URLs, each paired with total M), and empty or
whitespace-only inputs are filtered out before dispatch, contributing
neither a result nor a progress tick. -/
theorem check_many_results_and_progress (st : CheckerStats) (urls : List (List Char))
    (check : List Char → WebsiteStatus) (order : List Nat)
    (h : order.Perm (List.range (valid_urls urls).length)) :
    (check_many st urls check order).results.length = (valid_urls urls).length ∧
    (check_many st urls check order).calls =
      (List.range' 1 (valid_urls urls).length).map
        (fun i => (i, (valid_urls urls).length)) ∧
    ((check_many st urls check order).calls.map Prod.fst).Pairwise (· < ·) ∧
    (∀ n, (valid_urls urls).length = n + 1 →
      (check_many st urls check order).calls.getLast? = some (n + 1, n + 1)) ∧
    valid_urls urls = urls.filter (fun u => !(pyStrip u).isEmpty) := by
  have hlen : order.length = (valid_urls urls).length := by
    have := h.length_eq
    simpa using this
  have hres : (check_many st urls check order).results.length =
      (valid_urls urls).length := by
    simp only [check_many]
    simpa using hlen
  have hcalls : (check_many st urls check order).calls =
      (List.range' 1 (valid_urls urls).length).map
        (fun i => (i, (valid_urls urls).length)) := by
    simp only [check_many]
    rw [drain_calls]
    simp [hlen]
  refine ⟨hres, hcalls, ?_, ?_, ?_⟩
  · rw [hcalls, List.map_map]
    have hid : (Prod.fst ∘ fun i => (i, (valid_urls urls).length)) =
        fun i : Nat => i := rfl
    rw [hid, List.map_id']
    exact range'_pairwise_lt _ 1
  · intro n hn
    rw [hcalls, hn, map_range'_getLast]
    have : 1 + n = n + 1 := by omega
    rw [this]
  · unfold valid_urls
    apply List.filter_congr
    intro u hu
    cases u with
    | nil => rfl
    | cons a t => simp

/-- Claim C6, witness: a batch with one valid URL, one whitespace-only URL
and one empty URL emits exactly one result and one progress call (1, 1). -/
theorem check_many_results_witness :
    (check_many ⟨0, 0⟩ [("a.com".toList), (" ".toList), ("".toList)]
        (fun _ => WebsiteStatus.OK) [0]).results.length = 1 ∧
    (check_many ⟨0, 0⟩ [("a.com".toList), (" ".toList), ("".toList)]
        (fun _ => WebsiteStatus.OK) [0]).calls = [(1, 1)] := by
  have h := check_many_results_and_progress ⟨0, 0⟩
    [("a.com".toList), (" ".toList), ("".toList)] (fun _ => WebsiteStatus.OK) [0]
    (by decide)
  refine ⟨?_, ?_⟩
  · rw [h.1]
    decide
  · rw [h.2.1]
    decide

/-- Claim C2, counterexample: a 200 response on a non-parking host whose
body is longer than 2000 characters and contains two distinct
under-construction phrases is NOT classified UNDER_CONSTRUCTION when those
phrases ("coming soon", "under construction") are also parking keywords: the
parking-content check fires first and the result is REDIRECT_PARKING. -/
theorem parking_keywords_preempt_under_construction :
    2000 < cx_body.length ∧
    2 ≤ uc_match_count cx_body ∧
    is_parking_domain ("example.com".toList) = false ∧
    do_check_response true ⟨200, ("example.com".toList)⟩ (Except.ok cx_body) =
      WebsiteStatus.REDIRECT_PARKING := by
  refine ⟨by rw [cx_body_length]; norm_num, by decide, by decide, by decide⟩

/-- Claim C2 (amended): for a 200 response not flagged by the parking-domain
test, whose body is longer than 2000 characters and contains no
parking-page keyword: two or more distinct under-construction phrases
classify as UNDER_CONSTRUCTION, and exactly one such phrase classifies as
OK. (The counterexample forces the no-parking-keyword condition, since the
parking-content check runs first and several under-construction phrases are
also parking keywords.) -/
theorem under_construction_long_body_amended (resp : ProbeResponse)
    (body : List Char)
    (h200 : resp.status_code = 200)
    (hpark : is_parking_domain resp.final_netloc = false)
    (hkw : check_parking_content body = false)
    (hlen : 2000 < body.length) :
    (2 ≤ uc_match_count body →
      do_check_response true resp (Except.ok body) =
        WebsiteStatus.UNDER_CONSTRUCTION) ∧
    (uc_match_count body = 1 →
      do_check_response true resp (Except.ok body) = WebsiteStatus.OK) := by
  have hbody : body.isEmpty = false := by
    cases body with
    | nil => simp at hlen
    | cons a t => rfl
  have hred : do_check_response true resp (Except.ok body) =
      if is_under_construction body then WebsiteStatus.UNDER_CONSTRUCTION
      else WebsiteStatus.OK := by
    unfold do_check_response
    simp only [hpark, Bool.false_eq_true, if_false]
    rw [if_neg (by omega), if_neg (by omega), if_pos ⟨by trivial, by omega⟩]
    simp only [hkw, Bool.false_eq_true, if_false]
  have huc : is_under_construction body = decide (2 ≤ uc_match_count body) := by
    unfold is_under_construction
    simp only [hbody, Bool.false_eq_true, if_false]
    rw [if_neg (by omega)]
  constructor
  · intro h2
    rw [hred, huc, if_pos (decide_eq_true h2)]
  · intro h1
    have hd : decide (2 ≤ uc_match_count body) = false := by
      rw [h1]
      decide
    rw [hred, huc, hd]
    simp

/-- Claim C2, witness: concrete long parking-free bodies; with the two
distinct phrases "launching soon" and "we are working on it" (spelled with
an apostrophe, as in the source) the result is UNDER_CONSTRUCTION, and with
only "launching soon" it is OK. -/
theorem under_construction_long_body_witness :
    do_check_response true ⟨200, ("example.com".toList)⟩ (Except.ok uc_body_two) =
      WebsiteStatus.UNDER_CONSTRUCTION ∧
    do_check_response true ⟨200, ("example.com".toList)⟩ (Except.ok uc_body_one) =
      WebsiteStatus.OK := by
  constructor
  · exact (under_construction_long_body_amended ⟨200, ("example.com".toList)⟩
      uc_body_two rfl (by decide) (by decide)
      (by rw [uc_body_two_length]; norm_num)).1 (by decide)
  · exact (under_construction_long_body_amended ⟨200, ("example.com".toList)⟩
      uc_body_one rfl (by decide) (by decide)
      (by rw [uc_body_one_length]; norm_num)).2 (by decide)

end FindExpiredDomain
